import Mathlib

/-!
Verification of the Eka Care medical-records client SDK
(`src/python/ekacare_sdk/sdk.py`) against its design specification.

The embedding models the decoded JSON payloads the SDK passes around as a
`JValue` type with Python truthiness, and each SDK operation as a pure
function of its inputs plus the responses of the environment (HTTP status codes,
response bodies, the wall clock sampled at each `time.time()` call).
Network effects are made explicit: each operation returns the request it
would send (or `none` when it fails before any network call), and the
polling loop returns the number of fetch-result calls it performed.
-/

/-- Decoded JSON value, as produced by `response.json()` in the source. -/
inductive JValue where
  | null : JValue
  | bool : Bool → JValue
  | num : Int → JValue
  | str : String → JValue
  | arr : List JValue → JValue
  | obj : List (String × JValue) → JValue
deriving Repr

/-- Python truthiness of a decoded JSON value: `None`, `False`, `0`, the
empty string, the empty list and the empty dict are falsy, everything else
is truthy.  This is what `if data.get("fhir") and data.get("output")`
tests in `process_and_wait`. -/
def JValue.truthy : JValue → Bool
  | .null => false
  | .bool b => b
  | .num n => n != 0
  | .str s => !s.isEmpty
  | .arr xs => !xs.isEmpty
  | .obj fs => !fs.isEmpty

/-- Python `d[k]` on a decoded JSON value: a key lookup when the value is a
dict, and a failure (`KeyError` / `TypeError`, modelled as `none`)
otherwise or when the key is absent. -/
def jIndex (v : JValue) (k : String) : Option JValue :=
  match v with
  | .obj fs => fs.lookup k
  | _ => none

/-- Behaviour of `response.raise_for_status()` from the `requests`
library: it raises exactly for client-error and server-error status codes
(400–599). -/
def raiseForStatusFails (code : Nat) : Bool :=
  400 ≤ code && code < 600

/-! ### The polling loop of `process_and_wait` (sdk.py lines 209–229)

Each iteration of the `while True:` loop, in source order:
1. `if time.time() - start_time > timeout: raise TimeoutError`
2. `result = self.get_document_result(document_id)` (one fetch)
3. `data = result.get("data", {})`; `if data.get("fhir") and data.get("output"): return result`
4. `if result.get("status") == "failed": raise Exception(...)`
5. `time.sleep(poll_interval)` and loop.

The wall clock is modelled by `clock i`, the value `time.time()` returns at
the timeout check of iteration `i` (`start` is the `time.time()` taken just
before the loop); the sleep is modelled by `clock` being free to advance
between iterations.  `fetch i` is the payload the `i`-th fetch decodes.
The loop can run forever in the source, so the embedding carries fuel and
reports exhaustion as `outOfFuel`. -/

/-- Evaluation of the completion test of one loop iteration on a fetched
payload: `data = result.get("data", {})` followed by
`data.get("fhir") and data.get("output")`.  Returns `none` when the Python
code would raise (`result` not a dict, or a present `"data"` value that is
not a dict, on which `.get` fails with `AttributeError`). -/
def completionCheck (result : JValue) : Option Bool :=
  match result with
  | .obj fs =>
    match (fs.lookup "data").getD (.obj []) with
    | .obj dfs =>
      some ((((dfs.lookup "fhir").getD .null).truthy) &&
            (((dfs.lookup "output").getD .null).truthy))
    | _ => none
  | _ => none

/-- Evaluation of `result.get("status") == "failed"` on a fetched payload:
a Python `==` against the string literal, which is `True` exactly when the
stored value is that very string. -/
def statusFailed (result : JValue) : Bool :=
  match result with
  | .obj fs =>
    match (fs.lookup "status").getD .null with
    | .str s => s == "failed"
    | _ => false
  | _ => false

/-- Terminal outcome of the polling loop. -/
inductive PollOutcome where
  | completed : JValue → PollOutcome
  | failed : PollOutcome
  | timedOut : PollOutcome
  | pyError : PollOutcome
  | outOfFuel : PollOutcome
deriving Repr

/-- One execution of the polling loop starting at iteration `i`, returning
the outcome together with the index after the last fetch performed (when
started at `i = 0` this second component is the total number of
fetch-result network calls the loop made).  Mirrors sdk.py lines 209–229:
the timeout check comes first in each iteration, then the fetch, then the
completion check, then the failed-status check, then the sleep. -/
def pollLoopAux (fetch : Nat → JValue) (clock : Nat → Int)
    (start timeout : Int) : Nat → Nat → PollOutcome × Nat
  | 0, i => (.outOfFuel, i)
  | fuel + 1, i =>
    if clock i - start > timeout then
      (.timedOut, i)
    else
      let result := fetch i
      match completionCheck result with
      | none => (.pyError, i + 1)
      | some true => (.completed result, i + 1)
      | some false =>
        if statusFailed result then
          (.failed, i + 1)
        else
          pollLoopAux fetch clock start timeout fuel (i + 1)

/-- The polling loop of `process_and_wait`, started at its first
iteration. -/
def pollLoop (fetch : Nat → JValue) (clock : Nat → Int)
    (start timeout : Int) (fuel : Nat) : PollOutcome × Nat :=
  pollLoopAux fetch clock start timeout fuel 0

/-- Polling loop in the iteration order described by the waiting state
machine of section 4.2 of the specification: fetch first, then the completion check, then the
failed check, and the timeout check only after those, before the sleep.
This definition follows the words of the spec and exists only to be compared
with `pollLoopAux`, which follows the source. -/
def specOrderPollLoopAux (fetch : Nat → JValue) (clock : Nat → Int)
    (start timeout : Int) : Nat → Nat → PollOutcome × Nat
  | 0, i => (.outOfFuel, i)
  | fuel + 1, i =>
    let result := fetch i
    match completionCheck result with
    | none => (.pyError, i + 1)
    | some true => (.completed result, i + 1)
    | some false =>
      if statusFailed result then
        (.failed, i + 1)
      else if clock i - start > timeout then
        (.timedOut, i + 1)
      else
        specOrderPollLoopAux fetch clock start timeout fuel (i + 1)

/-- Spec-order polling loop started at its first iteration. -/
def specOrderPollLoop (fetch : Nat → JValue) (clock : Nat → Int)
    (start timeout : Int) (fuel : Nat) : PollOutcome × Nat :=
  specOrderPollLoopAux fetch clock start timeout fuel 0

/-! ### `process_document` (sdk.py lines 83–146)

In source order: check that the file exists (`FileNotFoundError`), check the
task value (`ValueError`), build the query parameters, guess the content
type, then POST the multipart upload and decode the response.  The
environment supplies whether the file exists, what `mimetypes.guess_type`
returns, and the HTTP response; the embedding returns the request the call
sends — `none` when it fails before any network call — together with its
outcome. -/

/-- The endpoint constants of the `EkaCareSDK` class. -/
def AUTH_ENDPOINT : String := "/connect-auth/v1/account/login"

/-- Upload endpoint constant. -/
def PROCESS_ENDPOINT : String := "/mr/api/v2/docs"

/-- The `valid_tasks` list of `process_document`. -/
def validTasks : List String := ["smart", "pii", "both"]

/-- Query-parameter construction of `process_document` (lines 122–128):
`[("dt", doc_type)]` followed by two task entries for `"both"` and one
otherwise. -/
def buildParams (doc_type task : String) : List (String × String) :=
  let params := [("dt", doc_type)]
  if task == "both" then
    params ++ [("task", "smart"), ("task", "pii")]
  else
    params ++ [("task", task)]

/-- The outgoing upload request of `process_document`. -/
structure UploadRequest where
  url : String
  params : List (String × String)
  fileName : String
  contentType : String
deriving Repr

/-- Outcome of a `process_document` call. -/
inductive SubmitOutcome where
  | fileNotFoundError : SubmitOutcome
  | valueError : SubmitOutcome
  | transportError : Nat → SubmitOutcome
  | ok : JValue → SubmitOutcome
deriving Repr

/-- Embedding of `process_document`.  `fileExists` models
`Path(file_path).exists()`, `fileName` models `Path(file_path).name`,
`guessedType` models `mimetypes.guess_type(file_path)`, and
`respCode`/`respBody` are the HTTP response of the upload POST.  The first
component is the request sent (`none` when validation fails before the
network call). -/
def process_document (base_url : String) (fileExists : Bool)
    (fileName doc_type task : String) (guessedType : Option String)
    (respCode : Nat) (respBody : JValue) :
    Option UploadRequest × SubmitOutcome :=
  if !fileExists then
    (none, .fileNotFoundError)
  else if !(validTasks.contains task) then
    (none, .valueError)
  else
    let req : UploadRequest :=
      { url := base_url ++ PROCESS_ENDPOINT
        params := buildParams doc_type task
        fileName := fileName
        contentType := guessedType.getD "application/octet-stream" }
    if raiseForStatusFails respCode then
      (some req, .transportError respCode)
    else
      (some req, .ok respBody)

/-! ### `get_document_result` (sdk.py lines 148–171) -/

/-- Outcome of a `get_document_result` call. -/
inductive FetchOutcome where
  | transportError : Nat → FetchOutcome
  | ok : JValue → FetchOutcome
deriving Repr

/-- Embedding of `get_document_result`: build the per-document result URL
(the `RESULT_ENDPOINT` format string with `document_id` substituted), GET
it, `raise_for_status`, and return `response.json()` as decoded.  The first
component is the URL requested. -/
def get_document_result (base_url document_id : String)
    (respCode : Nat) (respBody : JValue) : String × FetchOutcome :=
  let url := base_url ++ "/mr/api/v1/docs/" ++ document_id ++ "/result"
  (url,
    if raiseForStatusFails respCode then .transportError respCode
    else .ok respBody)

/-! ### Construction and `_authenticate` (sdk.py lines 36–81) -/

/-- A single-quote character, used by Python repr of strings. -/
def pyQuote : String := String.singleton (Char.ofNat 39)

mutual

/-- Python `repr()` rendering of a decoded JSON value, used for values
nested in containers: strings single-quoted, containers in Python
dict/list syntax. -/
def pyRepr : JValue → String
  | .null => "None"
  | .bool true => "True"
  | .bool false => "False"
  | .num n => toString n
  | .str s => pyQuote ++ s ++ pyQuote
  | .arr xs => "[" ++ pyReprList xs ++ "]"
  | .obj fs => "\x7b" ++ pyReprObj fs ++ "\x7d"

/-- Comma-separated Python repr of list elements. -/
def pyReprList : List JValue → String
  | [] => ""
  | [x] => pyRepr x
  | x :: y :: xs => pyRepr x ++ ", " ++ pyReprList (y :: xs)

/-- Comma-separated Python repr of dict entries. -/
def pyReprObj : List (String × JValue) → String
  | [] => ""
  | [(k, v)] => pyQuote ++ k ++ pyQuote ++ ": " ++ pyRepr v
  | (k, v) :: p :: xs => pyQuote ++ k ++ pyQuote ++ ": " ++ pyRepr v ++ ", " ++ pyReprObj (p :: xs)

end

/-- Python `str()` of a decoded JSON value, as interpolated by
`f"Bearer ..."` (line 75): strings render without quotes, other values as
their repr. -/
def pyStr : JValue → String
  | .str s => s
  | v => pyRepr v

/-- Python `dict.update` with a single key, as used on
`self._session.headers` (line 74): replace the value when the key is
present, append the pair otherwise. -/
def setHeader (hs : List (String × String)) (k v : String) :
    List (String × String) :=
  if hs.any (fun p => p.1 == k) then
    hs.map (fun p => if p.1 == k then (k, v) else p)
  else
    hs ++ [(k, v)]

/-- Client state after construction: credentials, normalised base URL, the
bearer token and the session headers (which the `requests` session
attaches to every subsequent request). -/
structure SdkState where
  client_id : String
  client_secret : String
  base_url : String
  bearer_token : Option JValue
  sessionHeaders : List (String × String)
deriving Repr

/-- Python `base_url.rstrip` with a slash argument: strip trailing slashes. -/
def rstripSlash (s : String) : String :=
  String.mk (s.data.reverse.dropWhile (fun c => c == '/')).reverse

/-- Embedding of `_authenticate`: POST the credentials, raise on a network
failure (`netFail`) or an error status, then read `data["access_token"]`
and install the `Authorization: Bearer ...` session header.  The auth
response body is a decoded JSON object (`respFields`); a missing
`access_token` key is the caught `KeyError` branch. -/
def authenticate (st : SdkState) (netFail : Bool) (respCode : Nat)
    (respFields : List (String × JValue)) : Except String SdkState :=
  if netFail || raiseForStatusFails respCode then
    .error "Authentication failed"
  else
    match respFields.lookup "access_token" with
    | none => .error "Access token not found in authentication response"
    | some tok =>
      .ok { st with
            bearer_token := some tok
            sessionHeaders :=
              setHeader st.sessionHeaders "Authorization" ("Bearer " ++ pyStr tok) }

/-- Embedding of `__init__`: store the credentials, normalise the base URL,
open a session with the default headers of the library, and run `_authenticate`
exactly once.  The first component counts the authentication exchanges
performed during construction. -/
def sdkInit (client_id client_secret base_url : String)
    (initHeaders : List (String × String)) (netFail : Bool)
    (respCode : Nat) (respFields : List (String × JValue)) :
    Nat × Except String SdkState :=
  let st : SdkState :=
    { client_id := client_id
      client_secret := client_secret
      base_url := rstripSlash base_url
      bearer_token := none
      sessionHeaders := initHeaders }
  (1, authenticate st netFail respCode respFields)

/-! ### `process_and_wait` (sdk.py lines 173–229) -/

/-- Outcome of a `process_and_wait` call. -/
inductive WaitOutcome where
  | fileNotFoundError : WaitOutcome
  | valueError : WaitOutcome
  | transportError : Nat → WaitOutcome
  | keyError : WaitOutcome
  | completed : JValue → WaitOutcome
  | processingFailed : WaitOutcome
  | timedOut : WaitOutcome
  | pyError : WaitOutcome
  | outOfFuel : WaitOutcome
deriving Repr

/-- Renaming of a polling-loop outcome into a `process_and_wait` outcome:
a returned payload stays a return, the `failed` branch is the raised
processing-failure exception, the timeout is the raised `TimeoutError`. -/
def pollToWait : PollOutcome × Nat → WaitOutcome × Nat
  | (.completed p, n) => (.completed p, n)
  | (.failed, n) => (.processingFailed, n)
  | (.timedOut, n) => (.timedOut, n)
  | (.pyError, n) => (.pyError, n)
  | (.outOfFuel, n) => (.outOfFuel, n)

/-- Embedding of `process_and_wait`: submit via `process_document` (with
the default `doc_type="lr"`), read `submit_result["document_id"]` (a
`KeyError` when absent), then run the polling loop.  The second component
is the number of fetch-result network calls performed. -/
def process_and_wait (base_url : String) (fileExists : Bool)
    (fileName task : String) (guessedType : Option String)
    (submitCode : Nat) (submitBody : JValue)
    (fetch : Nat → JValue) (clock : Nat → Int) (start timeout : Int)
    (fuel : Nat) : WaitOutcome × Nat :=
  match (process_document base_url fileExists fileName "lr" task guessedType
      submitCode submitBody).2 with
  | .fileNotFoundError => (.fileNotFoundError, 0)
  | .valueError => (.valueError, 0)
  | .transportError c => (.transportError c, 0)
  | .ok body =>
    match jIndex body "document_id" with
    | none => (.keyError, 0)
    | some _ => pollToWait (pollLoop fetch clock start timeout fuel)

/-! ### Concrete payloads used to exercise the definitions -/

/-- A result payload that is still pending: empty `data` dict. -/
def pendingPayload : JValue :=
  .obj [("status", .str "pending"), ("data", .obj [])]

/-- A result payload satisfying the completion condition while its status
field is not `"completed"`. -/
def completeEarlyPayload : JValue :=
  .obj [("status", .str "processing"),
        ("data", .obj [("fhir", .obj [("resourceType", .str "Bundle")]),
                       ("output", .obj [("entries", .arr [.num 1])])])]

/-- A result payload satisfying the completion condition with status
`"completed"`. -/
def donePayload : JValue :=
  .obj [("status", .str "completed"),
        ("data", .obj [("fhir", .obj [("a", .num 1)]),
                       ("output", .obj [("b", .num 2)])])]

/-- A result payload whose status field is `"failed"`. -/
def failedPayload : JValue :=
  .obj [("status", .str "failed"), ("data", .obj [])]

/-! ### Helper lemmas about the polling loop -/

section PollLemmas

variable (fetch : Nat → JValue) (clock : Nat → Int) (start timeout : Int)

/-- The fetch counter never decreases. -/
theorem pollAux_le (fuel : Nat) :
    ∀ i : Nat, i ≤ (pollLoopAux fetch clock start timeout fuel i).2 := by
  induction fuel with
  | zero => intro i; exact Nat.le_refl i
  | succ fuel ih =>
    intro i
    rw [pollLoopAux]
    by_cases hcl : clock i - start > timeout
    · simp [hcl]
    · simp only [if_neg hcl]
      cases hc : completionCheck (fetch i) with
      | none => simp
      | some b =>
        cases b with
        | true => simp
        | false =>
          by_cases hf : statusFailed (fetch i)
          · simp [hf]
          · simpa [hf] using Nat.le_trans (Nat.le_succ i) (ih (i + 1))

/-- Soundness of a completed outcome: the loop returned the payload of its
last fetch, and that payload passed the completion check. -/
theorem pollAux_completed_sound (fuel : Nat) :
    ∀ i p n, pollLoopAux fetch clock start timeout fuel i = (.completed p, n) →
      completionCheck p = some true ∧ ∃ j, i ≤ j ∧ n = j + 1 ∧ fetch j = p := by
  induction fuel with
  | zero => intro i p n h; exact absurd (congrArg Prod.fst h) (by simp [pollLoopAux])
  | succ fuel ih =>
    intro i p n h
    rw [pollLoopAux] at h
    by_cases hcl : clock i - start > timeout
    · simp [hcl] at h
    · simp only [if_neg hcl] at h
      cases hc : completionCheck (fetch i) with
      | none => rw [hc] at h; simp at h
      | some b =>
        cases b with
        | true =>
          rw [hc] at h
          simp only [Prod.mk.injEq, PollOutcome.completed.injEq] at h
          refine ⟨?_, i, Nat.le_refl i, h.2.symm, h.1⟩
          rw [← h.1]; exact hc
        | false =>
          rw [hc] at h
          by_cases hf : statusFailed (fetch i)
          · simp [hf] at h
          · simp only [if_neg hf] at h
            obtain ⟨hck, j, hij, hn, hfj⟩ := ih (i + 1) p n h
            exact ⟨hck, j, Nat.le_trans (Nat.le_succ i) hij, hn, hfj⟩

/-- Completeness: a fetch the loop actually performed whose payload passes
the completion check forces a completed outcome. -/
theorem pollAux_complete_found (fuel : Nat) :
    ∀ i j, i ≤ j → j < (pollLoopAux fetch clock start timeout fuel i).2 →
      completionCheck (fetch j) = some true →
      ∃ p, (pollLoopAux fetch clock start timeout fuel i).1 = .completed p := by
  induction fuel with
  | zero => intro i j hij hlt _; exact absurd hlt (by simp [pollLoopAux]; omega)
  | succ fuel ih =>
    intro i j hij hlt hcj
    rw [pollLoopAux] at hlt ⊢
    by_cases hcl : clock i - start > timeout
    · simp [hcl] at hlt; omega
    · simp only [if_neg hcl] at hlt ⊢
      cases hc : completionCheck (fetch i) with
      | none =>
        rw [hc] at hlt
        simp at hlt
        have : j = i := by omega
        rw [this, hc] at hcj
        exact absurd hcj (by simp)
      | some b =>
        cases b with
        | true => exact ⟨fetch i, rfl⟩
        | false =>
          rw [hc] at hlt
          by_cases hf : statusFailed (fetch i)
          · simp [hf] at hlt
            have : j = i := by omega
            rw [this, hc] at hcj
            exact absurd hcj (by simp)
          · simp [hf] at hlt ⊢
            have hij' : i + 1 ≤ j := by
              rcases Nat.eq_or_lt_of_le hij with heq | hlt'
              · exfalso; rw [← heq, hc] at hcj; exact absurd hcj (by simp)
              · exact hlt'
            exact ih (i + 1) j hij' hlt hcj

/-- A non-terminal iteration: when the timeout has not fired and the
fetched payload neither completes nor reports failure, the loop proceeds to
the next iteration. -/
theorem pollAux_skip (fuel i : Nat)
    (hcl : clock i - start ≤ timeout)
    (hc : completionCheck (fetch i) = some false)
    (hf : statusFailed (fetch i) = false) :
    pollLoopAux fetch clock start timeout (fuel + 1) i =
      pollLoopAux fetch clock start timeout fuel (i + 1) := by
  rw [pollLoopAux]
  simp only [if_neg (by omega : ¬ clock i - start > timeout)]
  rw [hc]
  simp [hf]

/-- Iterated form of `pollAux_skip`: after `d` non-terminal iterations the
loop stands at iteration `i + d`. -/
theorem pollAux_reach (d : Nat) :
    ∀ fuel i,
      (∀ k, i ≤ k → k < i + d →
        clock k - start ≤ timeout ∧ completionCheck (fetch k) = some false ∧
          statusFailed (fetch k) = false) →
      pollLoopAux fetch clock start timeout (fuel + d) i =
        pollLoopAux fetch clock start timeout fuel (i + d) := by
  induction d with
  | zero => intro fuel i _; rfl
  | succ d ih =>
    intro fuel i h
    obtain ⟨hcl, hc, hf⟩ := h i (Nat.le_refl i) (by omega)
    have step : pollLoopAux fetch clock start timeout (fuel + d + 1) i =
        pollLoopAux fetch clock start timeout (fuel + d) (i + 1) :=
      pollAux_skip fetch clock start timeout (fuel + d) i hcl hc hf
    calc pollLoopAux fetch clock start timeout (fuel + (d + 1)) i
        = pollLoopAux fetch clock start timeout (fuel + d) (i + 1) := step
      _ = pollLoopAux fetch clock start timeout fuel (i + 1 + d) := by
          refine ih fuel (i + 1) ?_
          intro k hk1 hk2
          exact h k (by omega) (by omega)
      _ = pollLoopAux fetch clock start timeout fuel (i + (d + 1)) := by
          have harith : i + 1 + d = i + (d + 1) := by omega
          rw [harith]

end PollLemmas

/-- Termination of the loop in the timed-out state: when the first `N`
iterations are non-terminal and the clock at iteration `N` exceeds the
deadline, the loop raises the timeout having performed exactly `N`
fetches. -/
theorem pollAux_timed_out_at (fetch : Nat → JValue) (clock : Nat → Int)
    (start timeout : Int) (N fuel : Nat)
    (hbefore : ∀ i, i < N →
      clock i - start ≤ timeout ∧ completionCheck (fetch i) = some false ∧
        statusFailed (fetch i) = false)
    (hN : timeout < clock N - start)
    (hfuel : N < fuel) :
    pollLoop fetch clock start timeout fuel = (.timedOut, N) := by
  have hsplit : fuel = (fuel - N) + N := by omega
  rw [pollLoop, hsplit,
    pollAux_reach fetch clock start timeout N (fuel - N) 0
      (fun k _ hk => hbefore k (by omega))]
  obtain ⟨m, hm⟩ : ∃ m, fuel - N = m + 1 := ⟨fuel - N - 1, by omega⟩
  rw [Nat.zero_add, hm, pollLoopAux]
  simp [hN]

/-- Termination of the loop in the failed state: when the first `j`
iterations are non-terminal and iteration `j` fetches a non-completing
payload with status `"failed"` before the deadline, the loop raises the
processing failure having performed exactly `j + 1` fetches. -/
theorem pollAux_failed_at (fetch : Nat → JValue) (clock : Nat → Int)
    (start timeout : Int) (j fuel : Nat)
    (hbefore : ∀ i, i < j →
      clock i - start ≤ timeout ∧ completionCheck (fetch i) = some false ∧
        statusFailed (fetch i) = false)
    (hclj : clock j - start ≤ timeout)
    (hcj : completionCheck (fetch j) = some false)
    (hfj : statusFailed (fetch j) = true)
    (hfuel : j < fuel) :
    pollLoop fetch clock start timeout fuel = (.failed, j + 1) := by
  have hsplit : fuel = (fuel - j) + j := by omega
  rw [pollLoop, hsplit,
    pollAux_reach fetch clock start timeout j (fuel - j) 0
      (fun k _ hk => hbefore k (by omega))]
  obtain ⟨m, hm⟩ : ∃ m, fuel - j = m + 1 := ⟨fuel - j - 1, by omega⟩
  rw [Nat.zero_add, hm, pollLoopAux]
  simp only [if_neg (by omega : ¬ clock j - start > timeout)]
  rw [hcj]
  simp [hfj]

/-- After a successful submission whose decoded body carries a
`document_id`, `process_and_wait` behaves as the polling loop. -/
theorem process_and_wait_submit_ok (base_url fileName task : String)
    (guessedType : Option String) (submitCode : Nat)
    (fs : List (String × JValue)) (v : JValue)
    (fetch : Nat → JValue) (clock : Nat → Int) (start timeout : Int)
    (fuel : Nat)
    (htask : validTasks.contains task = true)
    (hcode : raiseForStatusFails submitCode = false)
    (hdoc : fs.lookup "document_id" = some v) :
    process_and_wait base_url true fileName task guessedType submitCode
        (.obj fs) fetch clock start timeout fuel =
      pollToWait (pollLoop fetch clock start timeout fuel) := by
  have hmem : task ∈ validTasks := by simpa using htask
  simp [process_and_wait, process_document, hmem, hcode, jIndex, hdoc]

/-- Looking up the key just written by `setHeader` yields the written
value. -/
theorem lookup_map_overwrite (k v : String) (hs : List (String × String))
    (h : hs.any (fun p => p.1 == k) = true) :
    List.lookup k (hs.map (fun p => if p.1 == k then (k, v) else p)) = some v := by
  induction hs with
  | nil => simp at h
  | cons a as ih =>
    rw [List.map_cons]
    by_cases ha : (a.1 == k) = true
    · rw [if_pos ha]
      simp [List.lookup]
    · rw [if_neg (by simp [ha])]
      have ha' : (k == a.1) = false := by
        rw [beq_eq_false_iff_ne]
        rw [Bool.not_eq_true, beq_eq_false_iff_ne] at ha
        exact fun he => ha he.symm
      have h' : as.any (fun p => p.1 == k) = true := by
        simp only [List.any_cons, Bool.or_eq_true] at h
        rcases h with h | h
        · exact absurd h ha
        · exact h
      simp only [List.lookup, ha']
      exact ih h'

/-- Appending a fresh key makes it found by lookup. -/
theorem lookup_append_fresh (k v : String) (hs : List (String × String))
    (h : hs.any (fun p => p.1 == k) = false) :
    List.lookup k (hs ++ [(k, v)]) = some v := by
  induction hs with
  | nil => simp [List.lookup]
  | cons a as ih =>
    simp only [List.any_cons, Bool.or_eq_false_iff] at h
    have ha' : (k == a.1) = false := by
      have := h.1
      rw [beq_eq_false_iff_ne] at this ⊢
      exact fun he => this he.symm
    simp only [List.cons_append, List.lookup, ha']
    exact ih h.2

/-- Looking up the key just written by `setHeader` yields the written
value. -/
theorem setHeader_lookup (hs : List (String × String)) (k v : String) :
    (setHeader hs k v).lookup k = some v := by
  unfold setHeader
  by_cases h : hs.any (fun p => p.1 == k) = true
  · rw [if_pos h]
    exact lookup_map_overwrite k v hs h
  · rw [if_neg h]
    exact lookup_append_fresh k v hs (by rwa [Bool.not_eq_true] at h)

/-! ### Claim theorems -/

/-- C1: the polling loop of `process_and_wait` terminates in the completed
state, returning the fetched payload, if and only if some payload it
actually fetched passes the completion check (`data.fhir` and
`data.output` both truthy) — for every value of the status field, since
the check never consults it.  Direction one: a completed outcome returns a
fetched payload that passes the check.  Direction two: any performed fetch
whose payload passes the check forces a completed outcome. -/
theorem poll_completed_iff_payload (fetch : Nat → JValue) (clock : Nat → Int)
    (start timeout : Int) (fuel : Nat) :
    (∀ p n, pollLoop fetch clock start timeout fuel = (.completed p, n) →
      completionCheck p = some true ∧ ∃ j, j < n ∧ fetch j = p) ∧
    (∀ j, j < (pollLoop fetch clock start timeout fuel).2 →
      completionCheck (fetch j) = some true →
      ∃ p, (pollLoop fetch clock start timeout fuel).1 = .completed p) := by
  constructor
  · intro p n h
    obtain ⟨hck, j, _, hn, hfj⟩ :=
      pollAux_completed_sound fetch clock start timeout fuel 0 p n h
    exact ⟨hck, j, by omega, hfj⟩
  · intro j hj hcj
    exact pollAux_complete_found fetch clock start timeout fuel 0 j
      (Nat.zero_le j) hj hcj

/-- Witness for C1: a constant fetch of a payload whose status is
`"processing"` but whose `data.fhir` and `data.output` are both non-empty
yields a completed outcome. -/
theorem poll_completed_iff_payload_witness :
    ∃ p, (pollLoop (fun _ => completeEarlyPayload) (fun _ => 0) 0 300 5).1 =
      PollOutcome.completed p :=
  (poll_completed_iff_payload (fun _ => completeEarlyPayload)
    (fun _ => 0) 0 300 5).2 0 (by decide) (by decide)

/-- C4 counterexample: the claim says each iteration of the source loop
fetches first and only then evaluates the timeout condition, so a
completing payload fetched after the deadline would still be returned.
On this input the deadline passes during the first sleep and the second
fetch would return a completing payload: the loop that follows the spec
iteration order of section 4.2 returns it as completed, but the source loop —
which checks the timeout at the top of each iteration, before fetching —
times out after a single fetch and never fetches the completing payload. -/
theorem poll_order_cex :
    pollLoop (fun i => if i == 0 then pendingPayload else donePayload)
        (fun i => if i == 0 then 0 else 20) 0 10 5 =
      (PollOutcome.timedOut, 1) ∧
    specOrderPollLoop (fun i => if i == 0 then pendingPayload else donePayload)
        (fun i => if i == 0 then 0 else 20) 0 10 5 =
      (PollOutcome.completed donePayload, 2) := by
  constructor
  · rfl
  · rfl

/-- C4 amended: each iteration of the loop evaluates the timeout condition
first, before its fetch, then fetches, then checks completion, then checks
the failed status, and only then sleeps; in particular once the clock read
at the top of an iteration exceeds the deadline the loop raises
`TimeoutError` without fetching in that iteration — even when that fetch
would have returned a payload satisfying the completion condition. -/
theorem poll_timeout_checked_first (fetch : Nat → JValue) (clock : Nat → Int)
    (start timeout : Int) (j fuel : Nat)
    (hbefore : ∀ i, i < j →
      clock i - start ≤ timeout ∧ completionCheck (fetch i) = some false ∧
        statusFailed (fetch i) = false)
    (hj : timeout < clock j - start)
    (hcomplete : completionCheck (fetch j) = some true)
    (hfuel : j < fuel) :
    pollLoop fetch clock start timeout fuel = (.timedOut, j) :=
  pollAux_timed_out_at fetch clock start timeout j fuel hbefore hj hfuel

/-- Witness for the amended C4: on the counterexample input the loop times
out with exactly one fetch, the completing second payload unfetched. -/
theorem poll_timeout_checked_first_witness :
    pollLoop (fun i => if i == 0 then pendingPayload else donePayload)
        (fun i => if i == 0 then 0 else 20) 0 10 5 =
      (PollOutcome.timedOut, 1) :=
  poll_timeout_checked_first
    (fun i => if i == 0 then pendingPayload else donePayload)
    (fun i => if i == 0 then 0 else 20) 0 10 1 5
    (by decide) (by decide) (by decide) (by decide)

/-- C5: when no payload fetched within the timeout satisfies the
completion condition and none reports status `"failed"`,
`process_and_wait` raises `TimeoutError`, and the fetch count equals the
index of the first iteration whose clock exceeds the deadline — so no
fetch-result network call occurs at or after the timeout transition. -/
theorem wait_times_out (base_url fileName task : String)
    (guessedType : Option String) (submitCode : Nat)
    (fs : List (String × JValue)) (v : JValue)
    (fetch : Nat → JValue) (clock : Nat → Int) (start timeout : Int)
    (N fuel : Nat)
    (htask : validTasks.contains task = true)
    (hcode : raiseForStatusFails submitCode = false)
    (hdoc : fs.lookup "document_id" = some v)
    (hbefore : ∀ i, i < N →
      clock i - start ≤ timeout ∧ completionCheck (fetch i) = some false ∧
        statusFailed (fetch i) = false)
    (hN : timeout < clock N - start)
    (hfuel : N < fuel) :
    process_and_wait base_url true fileName task guessedType submitCode
        (.obj fs) fetch clock start timeout fuel = (.timedOut, N) := by
  rw [process_and_wait_submit_ok base_url fileName task guessedType submitCode
      fs v fetch clock start timeout fuel htask hcode hdoc,
    pollAux_timed_out_at fetch clock start timeout N fuel hbefore hN hfuel]
  rfl

/-- Witness for C5: a server that always reports a pending payload with an
empty data dict makes `process_and_wait` raise `TimeoutError` once the
clock passes the deadline, after exactly one fetch. -/
theorem wait_times_out_witness :
    process_and_wait "https://api.eka.care" true "report.jpg" "smart" none
        200 (.obj [("document_id", .str "doc_1")])
        (fun _ => pendingPayload) (fun i => if i == 0 then 0 else 301)
        0 300 5 =
      (WaitOutcome.timedOut, 1) :=
  wait_times_out "https://api.eka.care" "report.jpg" "smart" none 200
    [("document_id", .str "doc_1")] (.str "doc_1")
    (fun _ => pendingPayload) (fun i => if i == 0 then 0 else 301) 0 300 1 5
    (by decide) (by decide) rfl (by decide) (by decide) (by decide)

/-- C6: when, before any fetched payload satisfies the completion
condition, the loop fetches (still within the deadline) a payload whose
status field is `"failed"`, `process_and_wait` raises the
processing-failure error, and the fetch count equals the index of that
fetch plus one — so no further fetches occur. -/
theorem wait_processing_failed (base_url fileName task : String)
    (guessedType : Option String) (submitCode : Nat)
    (fs : List (String × JValue)) (v : JValue)
    (fetch : Nat → JValue) (clock : Nat → Int) (start timeout : Int)
    (j fuel : Nat)
    (htask : validTasks.contains task = true)
    (hcode : raiseForStatusFails submitCode = false)
    (hdoc : fs.lookup "document_id" = some v)
    (hbefore : ∀ i, i < j →
      clock i - start ≤ timeout ∧ completionCheck (fetch i) = some false ∧
        statusFailed (fetch i) = false)
    (hclj : clock j - start ≤ timeout)
    (hcj : completionCheck (fetch j) = some false)
    (hfj : statusFailed (fetch j) = true)
    (hfuel : j < fuel) :
    process_and_wait base_url true fileName task guessedType submitCode
        (.obj fs) fetch clock start timeout fuel =
      (.processingFailed, j + 1) := by
  rw [process_and_wait_submit_ok base_url fileName task guessedType submitCode
      fs v fetch clock start timeout fuel htask hcode hdoc,
    pollAux_failed_at fetch clock start timeout j fuel hbefore hclj hcj hfj
      hfuel]
  rfl

/-- Witness for C6: a first fetch that reports status `"failed"` with no
completion data makes `process_and_wait` raise the processing failure
after exactly one fetch. -/
theorem wait_processing_failed_witness :
    process_and_wait "https://api.eka.care" true "report.jpg" "smart" none
        200 (.obj [("document_id", .str "doc_1")])
        (fun _ => failedPayload) (fun _ => 0) 0 300 5 =
      (WaitOutcome.processingFailed, 1) :=
  wait_processing_failed "https://api.eka.care" "report.jpg" "smart" none 200
    [("document_id", .str "doc_1")] (.str "doc_1")
    (fun _ => failedPayload) (fun _ => 0) 0 300 0 5
    (by decide) (by decide) rfl (by decide) (by decide) rfl
    (by decide) (by decide)

/-- C9: `process_document` never checks the submission response for
`document_id`, but `process_and_wait` subscripts it unconditionally: when
the decoded submission response is an object lacking `"document_id"`, a
direct `process_document` call succeeds and returns the payload unchanged
for any `doc_type`, while `process_and_wait` fails with a `KeyError` —
none of the error kinds of the spec — having performed zero polling
fetches. -/
theorem wait_missing_document_id_key_error (base_url fileName task : String)
    (doc_type : String) (guessedType : Option String) (submitCode : Nat)
    (fs : List (String × JValue))
    (fetch : Nat → JValue) (clock : Nat → Int) (start timeout : Int)
    (fuel : Nat)
    (htask : validTasks.contains task = true)
    (hcode : raiseForStatusFails submitCode = false)
    (hmissing : fs.lookup "document_id" = none) :
    process_and_wait base_url true fileName task guessedType submitCode
        (.obj fs) fetch clock start timeout fuel = (.keyError, 0) ∧
    (process_document base_url true fileName doc_type task guessedType
        submitCode (.obj fs)).2 = .ok (.obj fs) := by
  have hmem : task ∈ validTasks := by simpa using htask
  constructor
  · simp [process_and_wait, process_document, hmem, hcode, jIndex, hmissing]
  · simp [process_document, hmem, hcode]

/-- Witness for C9: a submission response object holding only a status
field, without `document_id`, gives a `KeyError` from `process_and_wait`
and a normal return from `process_document`. -/
theorem wait_missing_document_id_key_error_witness :
    process_and_wait "https://api.eka.care" true "report.jpg" "smart" none
        200 (.obj [("status", .str "queued")])
        (fun _ => pendingPayload) (fun _ => 0) 0 300 5 =
      (WaitOutcome.keyError, 0) ∧
    (process_document "https://api.eka.care" true "report.jpg" "lr" "smart"
        none 200 (.obj [("status", .str "queued")])).2 =
      SubmitOutcome.ok (.obj [("status", .str "queued")]) :=
  wait_missing_document_id_key_error "https://api.eka.care" "report.jpg"
    "smart" "lr" none 200 [("status", .str "queued")]
    (fun _ => pendingPayload) (fun _ => 0) 0 300 5
    (by decide) (by decide) rfl

/-- C2: for a submission of an existing file with task `"both"` the
outgoing request carries exactly two `task` query parameters, `"smart"`
then `"pii"` in that order, and no `task` parameter with the literal value
`"both"`; for task `"smart"` or `"pii"` exactly one `task` parameter with
that value is sent. -/
theorem submit_both_task_params (base_url fileName doc_type : String)
    (guessedType : Option String) (respCode : Nat) (respBody : JValue) :
    (∃ req, (process_document base_url true fileName doc_type "both"
        guessedType respCode respBody).1 = some req ∧
      req.params.filter (fun p => p.1 == "task") =
        [("task", "smart"), ("task", "pii")] ∧
      req.params.filter (fun p => p.1 == "task" && p.2 == "both") = []) ∧
    (∀ task, task = "smart" ∨ task = "pii" →
      ∃ req, (process_document base_url true fileName doc_type task
          guessedType respCode respBody).1 = some req ∧
        req.params.filter (fun p => p.1 == "task") = [("task", task)]) := by
  have hdt : (("dt" : String) == "task") = false := by decide
  have htt : (("task" : String) == "task") = true := by decide
  constructor
  · refine ⟨{ url := base_url ++ PROCESS_ENDPOINT
              params := buildParams doc_type "both"
              fileName := fileName
              contentType := guessedType.getD "application/octet-stream" },
      ?_, ?_, ?_⟩
    · simp [process_document, validTasks, apply_ite Prod.fst]
    · simp [buildParams, List.filter, hdt, htt]
    · simp [buildParams, List.filter, hdt, htt]
  · intro task htask
    refine ⟨{ url := base_url ++ PROCESS_ENDPOINT
              params := buildParams doc_type task
              fileName := fileName
              contentType := guessedType.getD "application/octet-stream" },
      ?_, ?_⟩
    · rcases htask with h | h <;> subst h <;>
        simp [process_document, validTasks, apply_ite Prod.fst]
    · rcases htask with h | h <;> subst h <;>
        simp [buildParams, List.filter, hdt, htt]

/-- Witness for C2: concrete submissions with each of the three tasks. -/
theorem submit_both_task_params_witness :
    (∃ req, (process_document "https://api.eka.care" true "report.jpg" "lr"
        "both" none 200 JValue.null).1 = some req ∧
      req.params.filter (fun p => p.1 == "task") =
        [("task", "smart"), ("task", "pii")] ∧
      req.params.filter (fun p => p.1 == "task" && p.2 == "both") = []) ∧
    (∀ task, task = "smart" ∨ task = "pii" →
      ∃ req, (process_document "https://api.eka.care" true "report.jpg" "lr"
          task none 200 JValue.null).1 = some req ∧
        req.params.filter (fun p => p.1 == "task") = [("task", task)]) :=
  submit_both_task_params "https://api.eka.care" "report.jpg" "lr" none 200
    JValue.null

/-- C3 counterexample: the claim says that for every task value outside
the allowed set and every file path the call fails with `ValueError`; but
the source checks file existence first (line 111), so with a nonexistent
path and the invalid task `"bogus"` the call raises `FileNotFoundError`,
not `ValueError`. -/
theorem submit_invalid_task_cex :
    (process_document "https://api.eka.care" false "report.jpg" "lr" "bogus"
        none 200 JValue.null).2 = SubmitOutcome.fileNotFoundError ∧
    ¬ (process_document "https://api.eka.care" false "report.jpg" "lr"
        "bogus" none 200 JValue.null).2 = SubmitOutcome.valueError := by
  constructor
  · rfl
  · intro h
    exact SubmitOutcome.noConfusion h

/-- C3 amended: for every task value outside the set of smart, pii and
both, and every existing file path, `process_document` fails with `ValueError`
before any network call is made (no request is emitted); for a
nonexistent path the earlier file-existence check fails with
`FileNotFoundError` instead, equally before any network call. -/
theorem submit_invalid_task_value_error (base_url fileName doc_type task :
    String) (guessedType : Option String) (respCode : Nat) (respBody : JValue)
    (htask : validTasks.contains task = false) :
    process_document base_url true fileName doc_type task guessedType
        respCode respBody = (none, .valueError) := by
  have hmem : task ∉ validTasks := by simpa using htask
  simp [process_document, hmem]

/-- Witness for the amended C3: the invalid task `"bogus"` on an existing
file yields `ValueError` with no request sent. -/
theorem submit_invalid_task_value_error_witness :
    process_document "https://api.eka.care" true "report.jpg" "lr" "bogus"
        none 200 JValue.null = (none, SubmitOutcome.valueError) :=
  submit_invalid_task_value_error "https://api.eka.care" "report.jpg" "lr"
    "bogus" none 200 JValue.null (by decide)

/-- C10: `process_document` validates nothing about `doc_type`: for every
`doc_type` string, an existing file and a valid task, the call raises
neither of its validation errors and forwards `doc_type` verbatim as the
single `dt` query parameter of the upload request. -/
theorem submit_no_doc_type_validation (base_url fileName doc_type task :
    String) (guessedType : Option String) (respCode : Nat) (respBody : JValue)
    (htask : validTasks.contains task = true) :
    (∃ req, (process_document base_url true fileName doc_type task
        guessedType respCode respBody).1 = some req ∧
      req.params.filter (fun p => p.1 == "dt") = [("dt", doc_type)]) ∧
    ¬ (process_document base_url true fileName doc_type task guessedType
        respCode respBody).2 = SubmitOutcome.valueError ∧
    ¬ (process_document base_url true fileName doc_type task guessedType
        respCode respBody).2 = SubmitOutcome.fileNotFoundError := by
  have hdd : (("dt" : String) == "dt") = true := by decide
  have htd : (("task" : String) == "dt") = false := by decide
  have hmem : task ∈ validTasks := by simpa using htask
  refine ⟨⟨{ url := base_url ++ PROCESS_ENDPOINT
             params := buildParams doc_type task
             fileName := fileName
             contentType := guessedType.getD "application/octet-stream" },
    ?_, ?_⟩, ?_, ?_⟩
  · simp [process_document, hmem, apply_ite Prod.fst]
  · by_cases hb : (task == "both") = true
    · simp [buildParams, hb, List.filter, hdd, htd]
    · simp [buildParams, hb, List.filter, hdd, htd]
  · by_cases hc : raiseForStatusFails respCode = true <;>
      simp [process_document, hmem, hc]
  · by_cases hc : raiseForStatusFails respCode = true <;>
      simp [process_document, hmem, hc]

/-- Witness for C10: an arbitrary-looking `doc_type` string passes through
unvalidated as the `dt` parameter. -/
theorem submit_no_doc_type_validation_witness :
    (∃ req, (process_document "https://api.eka.care" true "report.jpg"
        "definitely-not-a-doc-type" "smart" none 200 JValue.null).1 =
          some req ∧
      req.params.filter (fun p => p.1 == "dt") =
        [("dt", "definitely-not-a-doc-type")]) ∧
    ¬ (process_document "https://api.eka.care" true "report.jpg"
        "definitely-not-a-doc-type" "smart" none 200 JValue.null).2 =
      SubmitOutcome.valueError ∧
    ¬ (process_document "https://api.eka.care" true "report.jpg"
        "definitely-not-a-doc-type" "smart" none 200 JValue.null).2 =
      SubmitOutcome.fileNotFoundError :=
  submit_no_doc_type_validation "https://api.eka.care" "report.jpg"
    "definitely-not-a-doc-type" "smart" none 200 JValue.null (by decide)

/-- C7: whenever the HTTP call succeeds (no error status),
`get_document_result` returns the decoded response payload itself — the
very same value, so no field is renamed, added or dropped, including
fields unknown to the client — for every document id. -/
theorem fetch_result_pass_through (base_url document_id : String)
    (respCode : Nat) (respBody : JValue)
    (h : raiseForStatusFails respCode = false) :
    (get_document_result base_url document_id respCode respBody).2 =
      FetchOutcome.ok respBody := by
  simp [get_document_result, h]

/-- Witness for C7: a payload with a field the client knows nothing about
comes back unchanged. -/
theorem fetch_result_pass_through_witness :
    (get_document_result "https://api.eka.care" "doc_1" 200
        (.obj [("unknown_field", .num 42), ("status", .str "pending")])).2 =
      FetchOutcome.ok
        (.obj [("unknown_field", .num 42), ("status", .str "pending")]) :=
  fetch_result_pass_through "https://api.eka.care" "doc_1" 200
    (.obj [("unknown_field", .num 42), ("status", .str "pending")])
    (by decide)

/-- C8: construction performs exactly one authentication exchange; it
fails exactly when the authentication network call fails (a transport
error or an error HTTP status, both raised as `RequestException`) or the
response object lacks the `access_token` field; and on success the
session — whose headers every subsequent request carries — holds
`Authorization: Bearer` followed by the received token. -/
theorem sdk_init_auth (client_id client_secret base_url : String)
    (initHeaders : List (String × String)) (netFail : Bool)
    (respCode : Nat) (respFields : List (String × JValue)) :
    (sdkInit client_id client_secret base_url initHeaders netFail respCode
        respFields).1 = 1 ∧
    ((∃ msg, (sdkInit client_id client_secret base_url initHeaders netFail
        respCode respFields).2 = .error msg) ↔
      (netFail = true ∨ raiseForStatusFails respCode = true ∨
        respFields.lookup "access_token" = none)) ∧
    (∀ st, (sdkInit client_id client_secret base_url initHeaders netFail
        respCode respFields).2 = .ok st →
      ∃ tok, respFields.lookup "access_token" = some tok ∧
        st.bearer_token = some tok ∧
        st.sessionHeaders.lookup "Authorization" =
          some ("Bearer " ++ pyStr tok)) := by
  refine ⟨rfl, ?_, ?_⟩
  · by_cases hn : (netFail || raiseForStatusFails respCode) = true
    · constructor
      · intro _
        rcases Bool.or_eq_true_iff.mp hn with h | h
        · exact Or.inl h
        · exact Or.inr (Or.inl h)
      · intro _
        exact ⟨"Authentication failed", by simp [sdkInit, authenticate, hn]⟩
    · rw [Bool.or_eq_true_iff] at hn
      push_neg at hn
      cases hl : respFields.lookup "access_token" with
      | none =>
        constructor
        · intro _; exact Or.inr (Or.inr rfl)
        · intro _
          refine ⟨"Access token not found in authentication response", ?_⟩
          simp only [sdkInit, authenticate]
          rw [if_neg (by simp [Bool.not_eq_true] at hn; simp [hn.1, hn.2])]
          rw [hl]
      | some tok =>
        constructor
        · intro ⟨msg, hmsg⟩
          simp only [sdkInit, authenticate] at hmsg
          rw [if_neg (by simp [Bool.not_eq_true] at hn; simp [hn.1, hn.2])] at hmsg
          rw [hl] at hmsg
          exact absurd hmsg (by simp)
        · intro habs
          rcases habs with h | h | h
          · exact absurd h hn.1
          · exact absurd h hn.2
          · exact Option.noConfusion h
  · intro st hst
    simp only [sdkInit, authenticate] at hst
    by_cases hn : (netFail || raiseForStatusFails respCode) = true
    · rw [if_pos hn] at hst
      exact Except.noConfusion hst
    · rw [if_neg hn] at hst
      cases hl : respFields.lookup "access_token" with
      | none => rw [hl] at hst; exact Except.noConfusion hst
      | some tok =>
        rw [hl] at hst
        have hst' := (Except.ok.injEq _ _).mp hst
        refine ⟨tok, rfl, ?_, ?_⟩
        · rw [← hst']
        · rw [← hst']
          exact setHeader_lookup initHeaders "Authorization"
            ("Bearer " ++ pyStr tok)

/-- Witness for C8: with a well-formed authentication response the client
is constructed after one exchange and its session carries the bearer
header with the received token. -/
theorem sdk_init_auth_witness :
    (sdkInit "cid" "secret" "https://api.eka.care" [] false 200
        [("access_token", .str "tok123")]).1 = 1 ∧
    ((∃ msg, (sdkInit "cid" "secret" "https://api.eka.care" [] false 200
        [("access_token", .str "tok123")]).2 = .error msg) ↔
      (false = true ∨ raiseForStatusFails 200 = true ∨
        List.lookup "access_token"
          [("access_token", JValue.str "tok123")] = none)) ∧
    (∀ st, (sdkInit "cid" "secret" "https://api.eka.care" [] false 200
        [("access_token", .str "tok123")]).2 = .ok st →
      ∃ tok, List.lookup "access_token"
          [("access_token", JValue.str "tok123")] = some tok ∧
        st.bearer_token = some tok ∧
        st.sessionHeaders.lookup "Authorization" =
          some ("Bearer " ++ pyStr tok)) :=
  sdk_init_auth "cid" "secret" "https://api.eka.care" [] false 200
    [("access_token", .str "tok123")]
